import Mathlib

/-!
Verification of the rooting/safepoint abstract-interpretation logic of the
Julia GC static-analysis checker (src/src/clangsa/GCChecker.cpp), as a
shallow embedding.  Symbolic identities and memory regions (vended by the
host symbolic-execution engine) are modelled as natural numbers; the
declaration/annotation query surface is modelled as boolean fields on
declaration records; the persistent per-path maps are modelled as
functions into `Option`.
-/

/-- Symbolic identity of a tracked value (clang `SymbolRef`). -/
abbrev SymbolRef := Nat

/-- Memory region identity (clang `const MemRegion *`). -/
abbrev MemRegion := Nat

/-- The tag of `GCChecker::ValueState` (`enum State`). -/
inductive VSKind
  | Allocated
  | Rooted
  | PotentiallyFreed
  | Untracked
deriving DecidableEq, Repr

/-- `GCChecker::ValueState`: tag, optional rooting region (`nullptr` = `none`)
and rooting depth.  The optional diagnostic metadata (`FD`/`PVD`) does not
participate in equality (`operator==` compares only `S`, `Root`, `RootDepth`)
and is omitted. -/
structure ValueState where
  S : VSKind
  Root : Option MemRegion
  RootDepth : Int
deriving DecidableEq, Repr

def ValueState.isRooted (vs : ValueState) : Bool :=
  match vs.S with
  | .Rooted => true
  | _ => false

def ValueState.isPotentiallyFreed (vs : ValueState) : Bool :=
  match vs.S with
  | .PotentiallyFreed => true
  | _ => false

def ValueState.isJustAllocated (vs : ValueState) : Bool :=
  match vs.S with
  | .Allocated => true
  | _ => false

def ValueState.isUntracked (vs : ValueState) : Bool :=
  match vs.S with
  | .Untracked => true
  | _ => false

def ValueState.isRootedBy (vs : ValueState) (r : MemRegion) : Bool :=
  vs.isRooted && vs.Root == some r

def ValueState.getAllocated : ValueState := ⟨.Allocated, none, -1⟩

def ValueState.getFreed : ValueState := ⟨.PotentiallyFreed, none, -1⟩

def ValueState.getUntracked : ValueState := ⟨.Untracked, none, -1⟩

def ValueState.getRooted (root : Option MemRegion) (depth : Int) : ValueState :=
  ⟨.Rooted, root, depth⟩

/-- Parameter declaration, with the recognized annotations queried through
`declHasAnnotation` modelled as booleans, and `isGCTrackedType` of the
parameter's type precomputed. -/
structure ParamDecl where
  maybeUnrooted : Bool
  requireRootedSlot : Bool
  isGCTracked : Bool
deriving DecidableEq, Repr

/-- `GCChecker::ValueState::getForArgument`: a parameter of a function that is
not itself a safepoint, or a parameter annotated `julia_maybe_unrooted`,
starts `Allocated`; any other tracked parameter starts `Rooted(nullptr,-1)`. -/
def ValueState.getForArgument (pvd : ParamDecl) (isFunctionSafepoint : Bool) :
    ValueState :=
  let maybeUnrooted := pvd.maybeUnrooted
  if !isFunctionSafepoint || maybeUnrooted then
    ValueState.getAllocated
  else
    ValueState.getRooted none (-1)

/-- The tag of `GCChecker::RootState` (`enum Kind`). -/
inductive RSKind
  | Root
  | RootArray
deriving DecidableEq, Repr

/-- `GCChecker::RootState`: kind and the root-frame depth at which the slot
was registered. -/
structure RootState where
  K : RSKind
  RootedAtDepth : Int
deriving DecidableEq, Repr

def RootState.shouldPopAtDepth (rs : RootState) (depth : Int) : Bool :=
  depth == rs.RootedAtDepth

def RootState.isRootArray (rs : RootState) : Bool :=
  match rs.K with
  | .RootArray => true
  | _ => false

def RootState.getRoot (depth : Int) : RootState := ⟨.Root, depth⟩

def RootState.getRootArray (depth : Int) : RootState := ⟨.RootArray, depth⟩

/-- The value `(unsigned)-1` used as the "enabled" sentinel for the
`GCDisabledAt` / `SafepointDisabledAt` program-state traits. -/
def UNSIGNED_NEG_ONE : Nat := 4294967295

/-- The value `(unsigned)-2` stored into `GCDisabledAt` by the modelled
`jl_gc_enable(0)` call. -/
def UNSIGNED_NEG_TWO : Nat := 4294967294

/-- The checker's per-path program state: the `GCDepth`, `GCDisabledAt` and
`SafepointDisabledAt` traits and the `GCValueMap` / `GCRootMap` maps. -/
structure ProgramState where
  gcDepth : Nat
  gcDisabledAt : Nat
  safepointDisabledAt : Nat
  valueMap : SymbolRef → Option ValueState
  rootMap : MemRegion → Option RootState

/-- `GCChecker::gcEnabledHere`: GC is enabled iff `GCDisabledAt == (unsigned)-1`. -/
def gcEnabledHere (st : ProgramState) : Bool :=
  st.gcDisabledAt == UNSIGNED_NEG_ONE

/-- `GCChecker::safepointEnabledHere`: safepoints are enabled iff
`SafepointDisabledAt == (unsigned)-1`. -/
def safepointEnabledHere (st : ProgramState) : Bool :=
  st.safepointDisabledAt == UNSIGNED_NEG_ONE

/-- Function declaration, with name, the recognized annotations
(`declHasAnnotation`) and the properties the checker queries on clang
`FunctionDecl`s modelled as fields.  `fileName` is the basename of the file
holding the declaration (used by `isFDAnnotatedNotSafepoint`). -/
structure FDecl where
  name : String
  isNoReturn : Bool
  isBuiltin : Bool
  isTrivialDecl : Bool
  notSafepointAnnot : Bool
  notSafepointLeave : Bool
  fileName : String
  params : List ParamDecl
deriving DecidableEq, Repr

/-- `GCChecker::isFDAnnotatedNotSafepoint`: the `julia_not_safepoint`
annotation, or residing in a file whose basename starts with `llvm-`. -/
def isFDAnnotatedNotSafepoint (f : FDecl) : Bool :=
  f.notSafepointAnnot || f.fileName.startsWith "llvm-"

/-- The `isMutexLock` name deny-list. -/
def isMutexLock (name : String) : Bool :=
  name == "uv_mutex_lock" ||
  name == "uv_mutex_trylock" ||
  name == "pthread_mutex_lock" ||
  name == "pthread_mutex_trylock" ||
  name == "__gthread_mutex_lock" ||
  name == "__gthread_mutex_trylock" ||
  name == "__gthread_recursive_mutex_lock" ||
  name == "__gthread_recursive_mutex_trylock" ||
  name == "pthread_spin_lock" ||
  name == "pthread_spin_trylock" ||
  name == "uv_rwlock_rdlock" ||
  name == "uv_rwlock_tryrdlock" ||
  name == "uv_rwlock_wrlock" ||
  name == "uv_rwlock_trywrlock" ||
  false

/-- The `isMutexUnlock` name deny-list. -/
def isMutexUnlock (name : String) : Bool :=
  name == "uv_mutex_unlock" ||
  name == "pthread_mutex_unlock" ||
  name == "__gthread_mutex_unlock" ||
  name == "__gthread_recursive_mutex_unlock" ||
  name == "pthread_spin_unlock" ||
  name == "uv_rwlock_rdunlock" ||
  name == "uv_rwlock_wrunlock" ||
  false

/-- Description of a call site, as consumed by `GCChecker::isSafepoint`:
whether the callee is declared in a system header, the namespaces enclosing
the resolved declaration (decl-context chain), whether there is a resolved
declaration / a callee expression, the shape of an undeclared callee
expression, and the resolved `FunctionDecl` when there is one. -/
structure CallDescr where
  inSystemHeader : Bool
  hasDecl : Bool
  declNamespaces : List String
  hasCalleeExpr : Bool
  calleeIsElaboratedTypedef : Bool
  calleeTypedefNotSafepointAnnot : Bool
  calleeIsPseudoDtor : Bool
  fd : Option FDecl
deriving DecidableEq, Repr

/-- `GCChecker::isSafepoint`: system-header calls and calls declared inside
the `llvm` or `std` namespace are not safepoints; calls with no resolvable
declaration and no callee expression are conservatively safepoints;
function-typed-typedef callees honor the `julia_not_safepoint` annotation;
pseudo-destructor calls are not safepoints; builtin/trivial functions and
the `uv_`/`unw_`/`_U` families (except `uv_run`) are not safepoints;
otherwise the callee is a safepoint unless `isFDAnnotatedNotSafepoint`. -/
def isSafepoint (c : CallDescr) : Bool :=
  if c.inSystemHeader then
    false
  else if c.hasDecl &&
      (c.declNamespaces.contains "llvm" || c.declNamespaces.contains "std") then
    false
  else
    match c.fd with
    | some f =>
      if f.isBuiltin || f.isTrivialDecl then
        false
      else if (f.name.startsWith "uv_" || f.name.startsWith "unw_" ||
               f.name.startsWith "_U") && f.name ≠ "uv_run" then
        false
      else
        !(isFDAnnotatedNotSafepoint f)
    | none =>
      if !c.hasCalleeExpr then
        true
      else if c.calleeIsElaboratedTypedef then
        !c.calleeTypedefNotSafepointAnnot
      else if c.calleeIsPseudoDtor then
        false
      else
        true

/-- Pointwise update of a symbol map. -/
def updSym (m : SymbolRef → Option ValueState) (s : SymbolRef) (vs : ValueState) :
    SymbolRef → Option ValueState :=
  fun x => if x = s then some vs else m x

/-- Pointwise update of a region map. -/
def updRegion (m : MemRegion → Option RootState) (r : MemRegion) (rs : RootState) :
    MemRegion → Option RootState :=
  fun x => if x = r then some rs else m x

/-- `GCChecker::processPotentialSafepoint`: if the call is a safepoint and GC
is enabled, every `Allocated` entry of the `GCValueMap` other than the
symbol found for a `julia_temporarily_roots`-annotated parameter
(`SpeciallyRootedSymbol`, resolved by the host engine from the argument
values) and the call's return-value symbol (`RetSym`) is set to
`ValueState::getFreed()`; all other entries are left as they are. -/
def processPotentialSafepoint (st : ProgramState) (cd : CallDescr)
    (speciallyRooted retSym : Option SymbolRef) : ProgramState :=
  if !(isSafepoint cd) then st
  else if !(gcEnabledHere st) then st
  else
    { st with
      valueMap := fun s =>
        match st.valueMap s with
        | none => none
        | some vs =>
          if vs.isJustAllocated then
            if speciallyRooted = some s then some vs
            else if retSym = some s then some vs
            else some ValueState.getFreed
          else some vs }

/-- The boxed-small-integer cache size `NBOX_C` from
`GCChecker::processAllocationOfResult`. -/
def NBOX_C : Int := 1024

/-- The value-dependent global-root test of the `jl_box_`/`ijl_box_` special
case: for the unsigned boxing intrinsics (`jl_box_u*`/`ijl_box_u*`) the
literal must satisfy `Value < NBOX_C`; for the signed ones it must satisfy
`-NBOX_C / 2 < Value && Value < NBOX_C - NBOX_C / 2`. -/
def jlBoxGloballyRooted (isUnsignedBoxFn : Bool) (value : Int) : Bool :=
  if isUnsignedBoxFn then
    decide (value < NBOX_C)
  else
    decide ((-NBOX_C) / 2 < value) && decide (value < NBOX_C - NBOX_C / 2)

/-- Result classification of a call to a `jl_box_`/`ijl_box_` intrinsic whose
result carries no prior value state (`NewVState` starts as
`ValueState::getAllocated()`): with a concrete integer literal argument in
the cached range the result becomes `Rooted(nullptr,-1)`, otherwise it stays
`Allocated`; a non-literal argument also leaves it `Allocated`. -/
def boxResultState (isUnsignedBoxFn : Bool) (litArg : Option Int) : ValueState :=
  let NewVState := ValueState.getAllocated
  match litArg with
  | some v =>
    if jlBoxGloballyRooted isUnsignedBoxFn v then ValueState.getRooted none (-1)
    else NewVState
  | none => NewVState

/-- Result of the modelled `JL_GC_POP` transition: whether the unbalanced-pop
error (`"JL_GC_POP without corresponding push"`) was reported, and the
resulting state. -/
structure PopResult where
  unbalancedError : Bool
  state : ProgramState

/-- Whether the root-map entry (if any) at region `r` is popped when the
depth counter returns to `newDepth` (`RootState::shouldPopAtDepth`). -/
def poppedRootHere (rootMap : MemRegion → Option RootState) (newDepth : Nat)
    (r : MemRegion) : Bool :=
  match rootMap r with
  | some rs => rs.shouldPopAtDepth (Int.ofNat newDepth)
  | none => false

/-- The `JL_GC_POP` branch of `GCChecker::evalCall`: error out at depth zero;
otherwise decrement `GCDepth`, drop every root-map entry registered at the
new depth, and reset every value-map entry rooted by one of the dropped
regions (`ValueState::isRootedBy`) to `ValueState::getAllocated()`. -/
def evalPop (st : ProgramState) : PopResult :=
  if st.gcDepth = 0 then ⟨true, st⟩
  else
    let newDepth := st.gcDepth - 1
    ⟨false,
      { st with
        gcDepth := newDepth
        rootMap := fun r =>
          if poppedRootHere st.rootMap newDepth r then none else st.rootMap r
        valueMap := fun s =>
          match st.valueMap s with
          | none => none
          | some vs =>
            if (match vs.Root with
                | some r => vs.isRooted && poppedRootHere st.rootMap newDepth r
                | none => false) then
              some ValueState.getAllocated
            else some vs }⟩

/-- The diagnostics that `GCChecker::checkPreCall` can emit: the
safepoint-while-safepoints-disabled report, the
`"Argument value may have been GCed"` report (UseOfPossiblyCollected) and
the `"Passing non-rooted value as argument to function that may GC"`
report (MissingRoot). -/
inductive Diag
  | SafepointViolation
  | UseOfPossiblyCollected (s : SymbolRef)
  | MissingRoot (s : SymbolRef)
deriving DecidableEq, Repr

/-- One call argument as seen by `checkPreCall`: the resolved symbol (after
the union/struct-by-value workaround), whether an argument expression is
available, and `isGCTracked` of that expression. -/
structure CallArg where
  sym : Option SymbolRef
  hasExpr : Bool
  trackedExpr : Bool
deriving DecidableEq, Repr

/-- The `julia_maybe_unrooted` test on the callee's parameter at `idx`
(false when there is no callee declaration or `idx` is past the last
parameter). -/
def paramMaybeUnrooted (fd : Option FDecl) (idx : Nat) : Bool :=
  match fd with
  | some f =>
    match f.params.get? idx with
    | some p => p.maybeUnrooted
    | none => false
  | none => false

/-- Per-argument diagnostics of the `checkPreCall` loop body: skip arguments
with no symbol, no value-map entry, or an untracked argument expression;
report `UseOfPossiblyCollected` for a `PotentiallyFreed` state; then, unless
the state is `Rooted`, report `MissingRoot` when the parameter is not
annotated `julia_maybe_unrooted` and the callee is a safepoint. -/
def argDiag (fd : Option FDecl) (isCalleeSafepoint : Bool)
    (vmap : SymbolRef → Option ValueState) (idx : Nat) (a : CallArg) :
    List Diag :=
  match a.sym with
  | none => []
  | some s =>
    match vmap s with
    | none => []
    | some vs =>
      if a.hasExpr && !a.trackedExpr then []
      else
        (if vs.isPotentiallyFreed then [Diag.UseOfPossiblyCollected s] else []) ++
        (if vs.isRooted then []
         else if !(paramMaybeUnrooted fd idx) && isCalleeSafepoint then
           [Diag.MissingRoot s]
         else [])

/-- The argument loop of `checkPreCall`, indexed from `idx`. -/
def argsDiags (fd : Option FDecl) (isCalleeSafepoint : Bool)
    (vmap : SymbolRef → Option ValueState) : Nat → List CallArg → List Diag
  | _, [] => []
  | idx, a :: rest =>
    argDiag fd isCalleeSafepoint vmap idx a ++
      argsDiags fd isCalleeSafepoint vmap (idx + 1) rest

/-- The inputs of `checkPreCall` beyond the program state: the current stack
frame height, `isFDAnnotatedNotSafepoint` of the enclosing function, the
callee declaration (when resolvable via `Call.getDecl()`), the result of
`isSafepoint(Call, C)` and the argument descriptions. -/
structure PreCallInput where
  stackHeight : Nat
  enclosingNotSafepoint : Bool
  fd : Option FDecl
  isCalleeSafepoint : Bool
  args : List CallArg

/-- `FDName` as computed in `checkPreCall` (empty when there is no callee
declaration). -/
def fdNameOf (fd : Option FDecl) : String :=
  match fd with
  | some f => f.name
  | none => ""

def fdIsNoReturn (fd : Option FDecl) : Bool :=
  match fd with
  | some f => f.isNoReturn
  | none => false

def fdNotSafepointLeave (fd : Option FDecl) : Bool :=
  match fd with
  | some f => f.notSafepointLeave
  | none => false

/-- `GCChecker::checkPreCall`: returns the emitted diagnostics and the next
state.  With GC disabled it does nothing.  Otherwise: calls to mutex-unlock
functions or callees annotated `julia_notsafepoint_leave` re-enable
safepoints disabled at the current stack height (unless the enclosing
function is annotated not-safepoint); a safepoint callee while safepoints
are disabled is reported (and stops the check) unless the callee is
no-return; a direct call to `JL_GC_PROMISE_ROOTED` is exempt from the
argument checks; otherwise the per-argument diagnostics are produced. -/
def preCallLeaveState (st : ProgramState) (c : PreCallInput) : ProgramState :=
  let doLeave := isMutexUnlock (fdNameOf c.fd) || fdNotSafepointLeave c.fd
  if doLeave && st.safepointDisabledAt = c.stackHeight &&
      !c.enclosingNotSafepoint then
    { st with safepointDisabledAt := UNSIGNED_NEG_ONE }
  else st

def checkPreCall (st : ProgramState) (c : PreCallInput) :
    List Diag × ProgramState :=
  if !(gcEnabledHere st) then ([], st)
  else
    let st1 := preCallLeaveState st c
    if !(safepointEnabledHere st1) && c.isCalleeSafepoint &&
        !(fdIsNoReturn c.fd) then
      ([Diag.SafepointViolation], st1)
    else if fdNameOf c.fd = "JL_GC_PROMISE_ROOTED" then ([], st1)
    else (argsDiags c.fd c.isCalleeSafepoint st1.valueMap 0 c.args, st1)

/-- Result of the modelled `jl_gc_enable`/`ijl_gc_enable` transition: the
next state and the modeled boolean return value bound to the call
expression. -/
structure GcEnableResult where
  state : ProgramState
  retVal : Bool

/-- The `jl_gc_enable` branch of `GCChecker::evalCall`: with a concrete
literal argument, `EnabledAfter` is its non-zeroness (a non-literal argument
leaves it `true`); disabling stores `(unsigned)-2` into `GCDisabledAt` and
enabling stores `(unsigned)-1`; the modeled return value is the
enabled/disabled state (`gcEnabledHere`) of the incoming state. -/
def evalGcEnable (st : ProgramState) (litArg : Option Int) : GcEnableResult :=
  let enabledAfter : Bool := match litArg with
    | some v => decide (v ≠ 0)
    | none => true
  let enabledNow := gcEnabledHere st
  let st' :=
    if !enabledAfter then { st with gcDisabledAt := UNSIGNED_NEG_TWO }
    else { st with gcDisabledAt := UNSIGNED_NEG_ONE }
  ⟨st', enabledNow⟩

/-- The root-slot branch of `GCChecker::checkBind` for a stored value that
already has a value state (the destination region `r` is registered in the
root map at depth `rootedAtDepth`): re-root the value at the slot unless it
is already rooted at an equal-or-shallower depth. -/
def bindRootUpdate (r : MemRegion) (rootedAtDepth : Int) (vs : ValueState) :
    ValueState :=
  if !vs.isRooted || decide (vs.RootDepth > rootedAtDepth) then
    ValueState.getRooted r rootedAtDepth
  else vs

/-- The load branch of `GCChecker::checkLocation` for a load through a
registered root slot at region `slocRegion` with depth `rootedAtDepth`: the
loaded symbol is (re-)rooted at the slot unless its existing state is
already rooted at an equal-or-shallower depth. -/
def loadRootUpdate (slocRegion : MemRegion) (rootedAtDepth : Int)
    (vsOpt : Option ValueState) : Option ValueState :=
  match vsOpt with
  | none => some (ValueState.getRooted slocRegion rootedAtDepth)
  | some vs =>
    if !vs.isRooted || decide (vs.RootDepth > rootedAtDepth) then
      some (ValueState.getRooted slocRegion rootedAtDepth)
    else some vs

/-- One parameter of the analyzed function at `checkBeginFunction`:
its declaration, the symbol of its value (`getSVal(Param).getAsSymbol()`)
and the region of its storage location. -/
structure ParamBinding where
  decl : ParamDecl
  sym : Option SymbolRef
  region : MemRegion

/-- One iteration of the top-frame parameter loop of
`GCChecker::checkBeginFunction`: a `julia_require_rooted_slot` parameter
registers its storage location as a permanent root; otherwise a parameter of
GC-tracked type (with a resolvable symbol) receives
`ValueState::getForArgument`. -/
def beginFunctionStep (isFunctionSafepoint : Bool) (st : ProgramState)
    (pb : ParamBinding) : ProgramState :=
  if pb.decl.requireRootedSlot then
    { st with rootMap := updRegion st.rootMap pb.region (RootState.getRoot (-1)) }
  else if pb.decl.isGCTracked then
    match pb.sym with
    | some s =>
      { st with
        valueMap :=
          updSym st.valueMap s
            (ValueState.getForArgument pb.decl isFunctionSafepoint) }
    | none => st
  else st

/-- The top-frame parameter loop of `GCChecker::checkBeginFunction`. -/
def checkBeginFunctionParams (isFunctionSafepoint : Bool) :
    ProgramState → List ParamBinding → ProgramState
  | st, [] => st
  | st, pb :: rest =>
    checkBeginFunctionParams isFunctionSafepoint
      (beginFunctionStep isFunctionSafepoint st pb) rest

/-- The `JL_GC_PROMISE_ROOTED` branch of `GCChecker::evalCall`: with no
resolvable symbol for the argument, report `"Can not understand this
promise."` (first component `true`) and leave the state unchanged;
otherwise force the argument's state to `Rooted(nullptr,-1)`. -/
def evalPromiseRooted (st : ProgramState) (argSym : Option SymbolRef) :
    Bool × ProgramState :=
  match argSym with
  | none => (true, st)
  | some s =>
    (false,
     { st with valueMap := updSym st.valueMap s (ValueState.getRooted none (-1)) })

/-- A sample value map: symbol 0 `Allocated`, symbol 1 `Rooted` by region 0
at depth 0, symbol 2 `PotentiallyFreed`. -/
def sampleMap : SymbolRef → Option ValueState := fun s =>
  if s = 0 then some ValueState.getAllocated
  else if s = 1 then some (ValueState.getRooted (some 0) 0)
  else if s = 2 then some ValueState.getFreed
  else none

/-- A sample root map: region 0 is a root slot registered at depth 0. -/
def sampleRoots : MemRegion → Option RootState := fun r =>
  if r = 0 then some (RootState.getRoot 0) else none

/-- A sample state with GC and safepoints enabled and one open root frame. -/
def sampleState : ProgramState :=
  { gcDepth := 1, gcDisabledAt := UNSIGNED_NEG_ONE,
    safepointDisabledAt := UNSIGNED_NEG_ONE,
    valueMap := sampleMap, rootMap := sampleRoots }

/-- A sample state in which GC has been disabled by `jl_gc_enable(0)`. -/
def sampleDisabledState : ProgramState :=
  { gcDepth := 0, gcDisabledAt := UNSIGNED_NEG_TWO,
    safepointDisabledAt := UNSIGNED_NEG_ONE,
    valueMap := sampleMap, rootMap := sampleRoots }

/-- A call with no resolvable declaration and no callee expression. -/
def unknownCall : CallDescr :=
  { inSystemHeader := false, hasDecl := false, declNamespaces := [],
    hasCalleeExpr := false, calleeIsElaboratedTypedef := false,
    calleeTypedefNotSafepointAnnot := false, calleeIsPseudoDtor := false,
    fd := none }

/-- A call whose declaration resides in the `llvm` namespace. -/
def llvmCall : CallDescr :=
  { inSystemHeader := false, hasDecl := true, declNamespaces := ["llvm"],
    hasCalleeExpr := true, calleeIsElaboratedTypedef := false,
    calleeTypedefNotSafepointAnnot := false, calleeIsPseudoDtor := false,
    fd := none }

/-- A sample callee declaration with no parameters and no annotations. -/
def sampleCalleeFD : FDecl :=
  { name := "jl_apply_generic", isNoReturn := false, isBuiltin := false,
    isTrivialDecl := false, notSafepointAnnot := false,
    notSafepointLeave := false, fileName := "gf.c", params := [] }

/-- A sample pre-call input: a safepoint callee taking symbol 0 (`Allocated`
in `sampleMap`) and symbol 2 (`PotentiallyFreed` in `sampleMap`). -/
def samplePreCall : PreCallInput :=
  { stackHeight := 1, enclosingNotSafepoint := false,
    fd := some sampleCalleeFD, isCalleeSafepoint := true,
    args := [⟨some 0, true, true⟩, ⟨some 2, true, true⟩] }

/-- The `JL_GC_PROMISE_ROOTED` declaration. -/
def promiseFD : FDecl :=
  { name := "JL_GC_PROMISE_ROOTED", isNoReturn := false, isBuiltin := false,
    isTrivialDecl := false, notSafepointAnnot := false,
    notSafepointLeave := false, fileName := "julia.h", params := [] }

/-- A pre-call input for a direct call to `JL_GC_PROMISE_ROOTED` passing the
`PotentiallyFreed` symbol 2. -/
def promiseCallInput : PreCallInput :=
  { stackHeight := 1, enclosingNotSafepoint := false,
    fd := some promiseFD, isCalleeSafepoint := true,
    args := [⟨some 2, true, true⟩] }

/-- A sample parameter annotated `julia_maybe_unrooted`, of GC-tracked type,
bound to symbol 5. -/
def sampleParamBinding : ParamBinding :=
  { decl := { maybeUnrooted := true, requireRootedSlot := false,
              isGCTracked := true },
    sym := some 5, region := 9 }

theorem isJustAllocated_iff (vs : ValueState) :
    vs.isJustAllocated = true ↔ vs.S = VSKind.Allocated := by
  unfold ValueState.isJustAllocated
  cases vs.S <;> simp

theorem isRooted_iff (vs : ValueState) :
    vs.isRooted = true ↔ vs.S = VSKind.Rooted := by
  unfold ValueState.isRooted
  cases vs.S <;> simp

theorem isPotentiallyFreed_iff (vs : ValueState) :
    vs.isPotentiallyFreed = true ↔ vs.S = VSKind.PotentiallyFreed := by
  unfold ValueState.isPotentiallyFreed
  cases vs.S <;> simp

/-- Claim C1: after `processPotentialSafepoint` for a call classified as a
safepoint while GC is enabled, every tracked value whose state was
`Allocated` immediately before is `PotentiallyFreed` immediately after,
except the call's return-value symbol and the symbol found for a
`julia_temporarily_roots`-annotated parameter; values in `Rooted`,
`PotentiallyFreed` or `Untracked` state are unchanged, and the two excepted
symbols are unchanged. -/
theorem safepoint_kill_c1 (st : ProgramState) (cd : CallDescr)
    (speciallyRooted retSym : Option SymbolRef)
    (hsp : isSafepoint cd = true) (hgc : gcEnabledHere st = true) :
    (∀ s vs, st.valueMap s = some vs → vs.S = VSKind.Allocated →
        speciallyRooted ≠ some s → retSym ≠ some s →
        (processPotentialSafepoint st cd speciallyRooted retSym).valueMap s =
          some ValueState.getFreed) ∧
    ValueState.getFreed.S = VSKind.PotentiallyFreed ∧
    (∀ s vs, st.valueMap s = some vs →
        (vs.S = VSKind.Rooted ∨ vs.S = VSKind.PotentiallyFreed ∨
          vs.S = VSKind.Untracked) →
        (processPotentialSafepoint st cd speciallyRooted retSym).valueMap s =
          some vs) ∧
    (∀ s vs, st.valueMap s = some vs →
        (speciallyRooted = some s ∨ retSym = some s) →
        (processPotentialSafepoint st cd speciallyRooted retSym).valueMap s =
          some vs) := by
  have hmap : (processPotentialSafepoint st cd speciallyRooted retSym).valueMap =
      fun s =>
        match st.valueMap s with
        | none => none
        | some vs =>
          if vs.isJustAllocated then
            if speciallyRooted = some s then some vs
            else if retSym = some s then some vs
            else some ValueState.getFreed
          else some vs := by
    unfold processPotentialSafepoint
    rw [hsp, hgc]
    rfl
  refine ⟨?_, rfl, ?_, ?_⟩
  · intro s vs h hS h1 h2
    rw [hmap]
    simp only [h]
    rw [if_pos ((isJustAllocated_iff vs).mpr hS), if_neg h1, if_neg h2]
  · intro s vs h hS
    rw [hmap]
    simp only [h]
    have : vs.isJustAllocated = false := by
      rcases hS with hS | hS | hS <;>
        simp [ValueState.isJustAllocated, hS]
    rw [this]
    simp
  · intro s vs h hex
    rw [hmap]
    simp only [h]
    by_cases ha : vs.isJustAllocated = true
    · rw [if_pos ha]
      rcases hex with hex | hex
      · rw [if_pos hex]
      · by_cases h1 : speciallyRooted = some s
        · rw [if_pos h1]
        · rw [if_neg h1, if_pos hex]
    · rw [if_neg ha]

/-- Claim C1 witness: in `sampleState` (GC enabled) the `Allocated` symbol 0
is killed to `PotentiallyFreed` by a safepoint call, while the `Rooted`
symbol 1 is unchanged. -/
theorem safepoint_kill_c1_witness :
    gcEnabledHere sampleState = true ∧
    isSafepoint unknownCall = true ∧
    (processPotentialSafepoint sampleState unknownCall none none).valueMap 0 =
      some ValueState.getFreed ∧
    (processPotentialSafepoint sampleState unknownCall none none).valueMap 1 =
      some (ValueState.getRooted (some 0) 0) := by
  have h := safepoint_kill_c1 sampleState unknownCall none none (by decide)
    (by decide)
  refine ⟨by decide, by decide, ?_, ?_⟩
  · exact h.1 0 ValueState.getAllocated (by decide) rfl (by decide) (by decide)
  · exact h.2.2.1 1 (ValueState.getRooted (some 0) 0) (by decide) (Or.inl rfl)

/-- Claim C2 counterexample: the claim asserts that signed boxing of any
literal in `[-512, 511]` yields `Rooted(null,-1)`, but the code's guard is
`-NBOX_C / 2 < Value`, which is strict: signed boxing of `-512` yields
`Allocated`, not `Rooted(null,-1)`. -/
theorem box_small_int_c2_counterexample :
    boxResultState false (some (-512)) = ValueState.getAllocated ∧
    boxResultState false (some (-512)) ≠ ValueState.getRooted none (-1) := by
  constructor <;> decide

/-- Claim C2 (amended): for a small-integer boxing intrinsic with a concrete
integer literal argument, the result is `Rooted(null,-1)` exactly when the
literal falls in `[-511, 511]` for signed boxing, or (for the non-negative
literals an unsigned argument type can carry) in `[0, 1023]` for unsigned
boxing, and `Allocated` otherwise; in particular signed boxing of `5`
yields `Rooted(null,-1)` and of `5000` yields `Allocated`. -/
theorem box_small_int_c2_range (v : Int) :
    (boxResultState false (some v) = ValueState.getRooted none (-1) ↔
      (-511 ≤ v ∧ v ≤ 511)) ∧
    (0 ≤ v →
      (boxResultState true (some v) = ValueState.getRooted none (-1) ↔
        v ≤ 1023)) ∧
    (¬(-511 ≤ v ∧ v ≤ 511) →
      boxResultState false (some v) = ValueState.getAllocated) := by
  have e1 : ((-NBOX_C) / 2 : Int) = -512 := by decide
  have e2 : ((NBOX_C - NBOX_C / 2) : Int) = 512 := by decide
  have hs : jlBoxGloballyRooted false v = true ↔ (-511 ≤ v ∧ v ≤ 511) := by
    unfold jlBoxGloballyRooted
    rw [if_neg (by simp)]
    rw [e1, e2]
    simp only [Bool.and_eq_true, decide_eq_true_eq]
    omega
  have hu : jlBoxGloballyRooted true v = true ↔ v < 1024 := by
    unfold jlBoxGloballyRooted
    rw [if_pos rfl]
    unfold NBOX_C
    simp only [decide_eq_true_eq]
  have hne : ValueState.getAllocated ≠ ValueState.getRooted none (-1) := by
    decide
  have hbox : ∀ (u : Bool) (w : Int), boxResultState u (some w) =
      if jlBoxGloballyRooted u w = true then ValueState.getRooted none (-1)
      else ValueState.getAllocated := fun u w => rfl
  refine ⟨?_, ?_, ?_⟩
  · rw [hbox]
    by_cases hc : jlBoxGloballyRooted false v = true
    · rw [if_pos hc]
      exact iff_of_true rfl (hs.mp hc)
    · rw [if_neg hc]
      constructor
      · intro habs
        exact absurd habs hne
      · intro hr
        exact absurd (hs.mpr hr) hc
  · intro h0
    rw [hbox]
    by_cases hc : jlBoxGloballyRooted true v = true
    · rw [if_pos hc]
      have := hu.mp hc
      constructor
      · intro _
        omega
      · intro _
        rfl
    · rw [if_neg hc]
      constructor
      · intro habs
        exact absurd habs hne
      · intro hr
        exact absurd (hu.mpr (by omega)) hc
  · intro hr
    rw [hbox]
    rw [if_neg (fun hc => hr (hs.mp hc))]

/-- Claim C2 witness: signed boxing of `511` and `5` and unsigned boxing of
`1023` are `Rooted(null,-1)`; signed boxing of `5000` is `Allocated`. -/
theorem box_small_int_c2_range_witness :
    boxResultState false (some 511) = ValueState.getRooted none (-1) ∧
    boxResultState false (some 5) = ValueState.getRooted none (-1) ∧
    boxResultState true (some 1023) = ValueState.getRooted none (-1) ∧
    boxResultState false (some 5000) = ValueState.getAllocated := by
  refine ⟨?_, ?_, ?_, ?_⟩
  · exact (box_small_int_c2_range 511).1.mpr (by decide)
  · exact (box_small_int_c2_range 5).1.mpr (by decide)
  · exact ((box_small_int_c2_range 1023).2.1 (by decide)).mpr (by decide)
  · exact (box_small_int_c2_range 5000).2.2 (by decide)

/-- Claim C3: `JL_GC_POP` with `gcDepth == 0` reports the unbalanced-frame
error and leaves the state unchanged; with `gcDepth > 0` it decrements the
depth, removes every root-map entry whose `rootedAtDepth` equals the new
depth, demotes every value rooted by one of the removed regions to
`Allocated`, and afterwards no value remains `Rooted` by a root that had
been registered at the popped depth. -/
theorem gc_pop_c3 (st : ProgramState) :
    (st.gcDepth = 0 → evalPop st = ⟨true, st⟩) ∧
    (st.gcDepth ≠ 0 →
      (evalPop st).unbalancedError = false ∧
      (evalPop st).state.gcDepth = st.gcDepth - 1 ∧
      (∀ r rs, st.rootMap r = some rs →
        rs.RootedAtDepth = Int.ofNat (st.gcDepth - 1) →
        (evalPop st).state.rootMap r = none) ∧
      (∀ s vs r rs, st.valueMap s = some vs → vs.S = VSKind.Rooted →
        vs.Root = some r → st.rootMap r = some rs →
        rs.RootedAtDepth = Int.ofNat (st.gcDepth - 1) →
        (evalPop st).state.valueMap s = some ValueState.getAllocated) ∧
      (∀ s vs r rs, (evalPop st).state.valueMap s = some vs →
        vs.S = VSKind.Rooted → vs.Root = some r → st.rootMap r = some rs →
        rs.RootedAtDepth ≠ Int.ofNat (st.gcDepth - 1))) := by
  constructor
  · intro h0
    unfold evalPop
    rw [if_pos h0]
  · intro hne
    have hpop : ∀ r rs, st.rootMap r = some rs →
        rs.RootedAtDepth = Int.ofNat (st.gcDepth - 1) →
        poppedRootHere st.rootMap (st.gcDepth - 1) r = true := by
      intro r rs hr hd
      unfold poppedRootHere
      rw [hr]
      show RootState.shouldPopAtDepth rs (Int.ofNat (st.gcDepth - 1)) = true
      unfold RootState.shouldPopAtDepth
      rw [hd]
      simp
    have hev : evalPop st = ⟨false,
        { st with
          gcDepth := st.gcDepth - 1
          rootMap := fun r =>
            if poppedRootHere st.rootMap (st.gcDepth - 1) r then none
            else st.rootMap r
          valueMap := fun s =>
            match st.valueMap s with
            | none => none
            | some vs =>
              if (match vs.Root with
                  | some r => vs.isRooted &&
                      poppedRootHere st.rootMap (st.gcDepth - 1) r
                  | none => false) then
                some ValueState.getAllocated
              else some vs }⟩ := by
      unfold evalPop
      rw [if_neg hne]
    refine ⟨by rw [hev], by rw [hev], ?_, ?_, ?_⟩
    · intro r rs hr hd
      rw [hev]
      simp only
      rw [if_pos (hpop r rs hr hd)]
    · intro s vs r rs hs hS hRoot hr hd
      have hcond : (match vs.Root with
          | some r0 => vs.isRooted && poppedRootHere st.rootMap (st.gcDepth - 1) r0
          | none => false) = true := by
        rw [hRoot]
        show (vs.isRooted && poppedRootHere st.rootMap (st.gcDepth - 1) r) = true
        rw [(isRooted_iff vs).mpr hS, hpop r rs hr hd]
        rfl
      rw [hev]
      simp only [hs]
      rw [if_pos hcond]
    · intro s vs r rs hs hS hRoot hr
      intro hd
      rw [hev] at hs
      have hs3 : (match st.valueMap s with
          | none => none
          | some vs1 =>
            if (match vs1.Root with
                | some r1 => vs1.isRooted &&
                    poppedRootHere st.rootMap (st.gcDepth - 1) r1
                | none => false) = true then some ValueState.getAllocated
            else some vs1) = some vs := hs
      rcases hmem : st.valueMap s with _ | vs0
      · rw [hmem] at hs3
        exact Option.noConfusion hs3
      · rw [hmem] at hs3
        have hs2 : (if (match vs0.Root with
            | some r0 => vs0.isRooted &&
                poppedRootHere st.rootMap (st.gcDepth - 1) r0
            | none => false) = true then some ValueState.getAllocated
            else some vs0) = some vs := hs3
        by_cases hc : (match vs0.Root with
            | some r0 => vs0.isRooted &&
                poppedRootHere st.rootMap (st.gcDepth - 1) r0
            | none => false) = true
        · rw [if_pos hc] at hs2
          have hvs : vs = ValueState.getAllocated := by
            injection hs2 with h
            exact h.symm
          rw [hvs] at hS
          exact VSKind.noConfusion hS
        · rw [if_neg hc] at hs2
          have hvs : vs0 = vs := by
            injection hs2
          rw [hvs] at hc
          apply hc
          rw [hRoot]
          show (vs.isRooted && poppedRootHere st.rootMap (st.gcDepth - 1) r) = true
          rw [(isRooted_iff vs).mpr hS, hpop r rs hr hd]
          rfl

/-- Claim C3 witness: popping `sampleState` (depth 1, region 0 registered at
depth 0, symbol 1 rooted by region 0) removes the root and demotes symbol 1
to `Allocated`; popping a depth-0 state reports the error and changes
nothing. -/
theorem gc_pop_c3_witness :
    (evalPop sampleState).unbalancedError = false ∧
    (evalPop sampleState).state.gcDepth = 0 ∧
    (evalPop sampleState).state.rootMap 0 = none ∧
    (evalPop sampleState).state.valueMap 1 = some ValueState.getAllocated ∧
    evalPop sampleDisabledState = ⟨true, sampleDisabledState⟩ := by
  have h := (gc_pop_c3 sampleState).2 (by decide)
  refine ⟨h.1, h.2.1, ?_, ?_, (gc_pop_c3 sampleDisabledState).1 rfl⟩
  · exact h.2.2.1 0 (RootState.getRoot 0) (by decide) (by decide)
  · exact h.2.2.2.1 1 (ValueState.getRooted (some 0) 0) 0 (RootState.getRoot 0)
      (by decide) rfl rfl (by decide) (by decide)

theorem mem_argsDiags_of_get (fd : Option FDecl) (sp : Bool)
    (vmap : SymbolRef → Option ValueState) :
    ∀ (args : List CallArg) (start idx : Nat) (a : CallArg),
      args.get? idx = some a →
      ∀ d ∈ argDiag fd sp vmap (start + idx) a,
        d ∈ argsDiags fd sp vmap start args := by
  intro args
  induction args with
  | nil =>
    intro start idx a h
    simp at h
  | cons hd tl ih =>
    intro start idx a h d hmem
    cases idx with
    | zero =>
      rw [List.get?_cons_zero] at h
      injection h with h
      subst h
      exact List.mem_append_left _ hmem
    | succ n =>
      rw [List.get?_cons_succ] at h
      have harith : start + (n + 1) = (start + 1) + n := by omega
      rw [harith] at hmem
      exact List.mem_append_right _ (ih (start + 1) n a h d hmem)

theorem preCallLeaveState_valueMap (st : ProgramState) (c : PreCallInput) :
    (preCallLeaveState st c).valueMap = st.valueMap := by
  unfold preCallLeaveState
  dsimp only
  split <;> rfl

theorem preCallLeaveState_sp (st : ProgramState) (c : PreCallInput)
    (h : st.safepointDisabledAt = UNSIGNED_NEG_ONE) :
    (preCallLeaveState st c).safepointDisabledAt = UNSIGNED_NEG_ONE := by
  unfold preCallLeaveState
  dsimp only
  split
  · rfl
  · exact h

theorem checkPreCall_args (st : ProgramState) (c : PreCallInput)
    (hgc : gcEnabledHere st = true)
    (hsp : st.safepointDisabledAt = UNSIGNED_NEG_ONE)
    (hname : fdNameOf c.fd ≠ "JL_GC_PROMISE_ROOTED") :
    (checkPreCall st c).1 =
      argsDiags c.fd c.isCalleeSafepoint st.valueMap 0 c.args := by
  unfold checkPreCall
  rw [hgc]
  simp only [Bool.not_true, Bool.false_eq_true, if_false]
  have hen : safepointEnabledHere (preCallLeaveState st c) = true := by
    unfold safepointEnabledHere
    rw [preCallLeaveState_sp st c hsp]
    simp
  rw [hen]
  simp only [Bool.not_true, Bool.false_and, Bool.false_eq_true, if_false]
  rw [if_neg hname, preCallLeaveState_valueMap st c]

/-- Claim C4: at a pre-call check with GC enabled (and safepoints enabled,
so that the check reaches the argument loop, and for a callee other than
`JL_GC_PROMISE_ROOTED`), a tracked argument whose state is `Allocated`,
passed to a safepoint callee through a parameter not annotated
`julia_maybe_unrooted`, produces the MissingRoot diagnostic
(`"Passing non-rooted value as argument to function that may GC"`); an
argument in `PotentiallyFreed` state produces the UseOfPossiblyCollected
diagnostic (`"Argument value may have been GCed"`) regardless of the
callee's safepoint classification. -/
theorem precall_arg_c4 (st : ProgramState) (c : PreCallInput) (idx : Nat)
    (a : CallArg) (s : SymbolRef) (vs : ValueState)
    (hgc : gcEnabledHere st = true)
    (hsp : st.safepointDisabledAt = UNSIGNED_NEG_ONE)
    (hname : fdNameOf c.fd ≠ "JL_GC_PROMISE_ROOTED")
    (hidx : c.args.get? idx = some a)
    (hsym : a.sym = some s)
    (htr : a.trackedExpr = true)
    (hvs : st.valueMap s = some vs) :
    (vs.S = VSKind.Allocated → paramMaybeUnrooted c.fd idx = false →
      c.isCalleeSafepoint = true →
      Diag.MissingRoot s ∈ (checkPreCall st c).1) ∧
    (vs.S = VSKind.PotentiallyFreed →
      Diag.UseOfPossiblyCollected s ∈ (checkPreCall st c).1) := by
  have hlist := checkPreCall_args st c hgc hsp hname
  constructor
  · intro hS h2 h3
    have hf : vs.isPotentiallyFreed = false := by
      unfold ValueState.isPotentiallyFreed
      rw [hS]
    have hro : vs.isRooted = false := by
      unfold ValueState.isRooted
      rw [hS]
    have hd : argDiag c.fd c.isCalleeSafepoint st.valueMap idx a =
        [Diag.MissingRoot s] := by
      unfold argDiag
      simp only [hsym, hvs, htr, Bool.not_true, Bool.and_false,
        Bool.false_eq_true, if_false, hf, hro, h2, h3]
      simp
    rw [hlist]
    have hmem := mem_argsDiags_of_get c.fd c.isCalleeSafepoint st.valueMap
      c.args 0 idx a hidx (Diag.MissingRoot s)
    rw [Nat.zero_add, hd] at hmem
    exact hmem (by simp)
  · intro hS
    have hf : vs.isPotentiallyFreed = true := (isPotentiallyFreed_iff vs).mpr hS
    have hro : vs.isRooted = false := by
      unfold ValueState.isRooted
      rw [hS]
    have hd : Diag.UseOfPossiblyCollected s ∈
        argDiag c.fd c.isCalleeSafepoint st.valueMap idx a := by
      unfold argDiag
      simp only [hsym, hvs, htr, Bool.not_true, Bool.and_false,
        Bool.false_eq_true, if_false, hf, hro]
      simp
    rw [hlist]
    have hmem := mem_argsDiags_of_get c.fd c.isCalleeSafepoint st.valueMap
      c.args 0 idx a hidx (Diag.UseOfPossiblyCollected s)
    rw [Nat.zero_add] at hmem
    exact hmem hd

/-- Claim C4 witness: in `sampleState` with the safepoint callee of
`samplePreCall`, the `Allocated` argument symbol 0 raises MissingRoot and
the `PotentiallyFreed` argument symbol 2 raises UseOfPossiblyCollected. -/
theorem precall_arg_c4_witness :
    Diag.MissingRoot 0 ∈ (checkPreCall sampleState samplePreCall).1 ∧
    Diag.UseOfPossiblyCollected 2 ∈
      (checkPreCall sampleState samplePreCall).1 := by
  constructor
  · exact (precall_arg_c4 sampleState samplePreCall 0 ⟨some 0, true, true⟩ 0
      ValueState.getAllocated (by decide) rfl (by decide) rfl rfl rfl
      (by decide)).1 rfl (by decide) rfl
  · exact (precall_arg_c4 sampleState samplePreCall 1 ⟨some 2, true, true⟩ 2
      ValueState.getFreed (by decide) rfl (by decide) rfl rfl rfl
      (by decide)).2 rfl

theorem checkBeginFunctionParams_append (f : Bool) (st : ProgramState)
    (xs ys : List ParamBinding) :
    checkBeginFunctionParams f st (xs ++ ys) =
      checkBeginFunctionParams f (checkBeginFunctionParams f st xs) ys := by
  induction xs generalizing st with
  | nil => rfl
  | cons hd tl ih =>
    rw [List.cons_append]
    show checkBeginFunctionParams f (beginFunctionStep f st hd) (tl ++ ys) =
      checkBeginFunctionParams f
        (checkBeginFunctionParams f (beginFunctionStep f st hd) tl) ys
    exact ih (beginFunctionStep f st hd)

theorem checkBeginFunctionParams_preserve (f : Bool) (s : SymbolRef) :
    ∀ (ps : List ParamBinding) (st : ProgramState),
      (∀ pb ∈ ps, pb.decl.requireRootedSlot = false →
        pb.decl.isGCTracked = true → pb.sym ≠ some s) →
      (checkBeginFunctionParams f st ps).valueMap s = st.valueMap s := by
  intro ps
  induction ps with
  | nil =>
    intro st h
    rfl
  | cons hd tl ih =>
    intro st h
    have htl : ∀ pb ∈ tl, pb.decl.requireRootedSlot = false →
        pb.decl.isGCTracked = true → pb.sym ≠ some s :=
      fun pb hm => h pb (List.mem_cons_of_mem _ hm)
    unfold checkBeginFunctionParams
    rw [ih _ htl]
    unfold beginFunctionStep
    by_cases h1 : hd.decl.requireRootedSlot = true
    · rw [if_pos h1]
    · rw [if_neg h1]
      by_cases h2 : hd.decl.isGCTracked = true
      · rw [if_pos h2]
        rcases hsym : hd.sym with _ | s0
        · rfl
        · have hne : hd.sym ≠ some s :=
            h hd (List.mem_cons_self _ _) (by
              cases hb : hd.decl.requireRootedSlot
              · rfl
              · exact absurd hb h1) h2
          rw [hsym] at hne
          have hne2 : s ≠ s0 := fun he => hne (by rw [he])
          show updSym st.valueMap s0 _ s = st.valueMap s
          unfold updSym
          rw [if_neg hne2]
      · rw [if_neg h2]

/-- Claim C5: in the top-frame parameter loop of `checkBeginFunction`, a
GC-tracked parameter (not annotated `julia_require_rooted_slot`, with a
resolvable symbol not rebound by any later parameter) receives exactly
`ValueState::getForArgument`, which is `Allocated` when the enclosing
function is not a safepoint or the parameter is annotated
`julia_maybe_unrooted`, and `Rooted(null,-1)` otherwise; in particular a
maybe-unrooted parameter of a safepoint function starts `Allocated`. -/
theorem begin_function_c5 (isFunctionSafepoint : Bool) (st : ProgramState)
    (pre post : List ParamBinding) (pb : ParamBinding) (s : SymbolRef)
    (h1 : pb.decl.requireRootedSlot = false)
    (h2 : pb.decl.isGCTracked = true)
    (h3 : pb.sym = some s)
    (h4 : ∀ pb' ∈ post, pb'.decl.requireRootedSlot = false →
      pb'.decl.isGCTracked = true → pb'.sym ≠ some s) :
    (checkBeginFunctionParams isFunctionSafepoint st
        (pre ++ pb :: post)).valueMap s =
      some (ValueState.getForArgument pb.decl isFunctionSafepoint) ∧
    ((isFunctionSafepoint = false ∨ pb.decl.maybeUnrooted = true) →
      ValueState.getForArgument pb.decl isFunctionSafepoint =
        ValueState.getAllocated) ∧
    (isFunctionSafepoint = true → pb.decl.maybeUnrooted = false →
      ValueState.getForArgument pb.decl isFunctionSafepoint =
        ValueState.getRooted none (-1)) := by
  refine ⟨?_, ?_, ?_⟩
  · rw [checkBeginFunctionParams_append]
    set st0 := checkBeginFunctionParams isFunctionSafepoint st pre
    unfold checkBeginFunctionParams
    rw [checkBeginFunctionParams_preserve isFunctionSafepoint s post _ h4]
    unfold beginFunctionStep
    rw [if_neg (by rw [h1]; exact Bool.false_ne_true), if_pos h2, h3]
    show updSym st0.valueMap s _ s = _
    unfold updSym
    rw [if_pos rfl]
  · intro hcase
    unfold ValueState.getForArgument
    rcases hcase with hcase | hcase <;> rw [hcase] <;> simp
  · intro hf hm
    unfold ValueState.getForArgument
    rw [hf, hm]
    rfl

/-- Claim C5 witness: a `julia_maybe_unrooted` GC-tracked parameter (symbol
5) of a safepoint-classified function starts `Allocated`, not `Rooted`. -/
theorem begin_function_c5_witness :
    (checkBeginFunctionParams true sampleState
        [sampleParamBinding]).valueMap 5 = some ValueState.getAllocated ∧
    some ValueState.getAllocated ≠ some (ValueState.getRooted none (-1)) := by
  have h := begin_function_c5 true sampleState [] [] sampleParamBinding 5
    rfl rfl rfl (by simp)
  constructor
  · exact h.1.trans (congrArg some (h.2.1 (Or.inr rfl)))
  · decide

/-- Claim C6 counterexample: the claim asserts that disabling GC records the
current stack height in `gcDisabledAt`, but the `jl_gc_enable` transition
stores the fixed sentinel `(unsigned)-2` regardless of stack height (the
transition does not consult the stack frame at all): at a call site with
stack height 3, disabling GC in `sampleState` yields
`gcDisabledAt = (unsigned)-2 ≠ 3`. -/
theorem gc_enable_c6_counterexample :
    (evalGcEnable sampleState (some 0)).state.gcDisabledAt =
      UNSIGNED_NEG_TWO ∧
    UNSIGNED_NEG_TWO ≠ 3 := by
  constructor <;> decide

/-- Claim C6 (amended): `jl_gc_enable` with a concrete literal argument sets
`gcDisabledAt` to the fixed disabled sentinel `(unsigned)-2` when disabling
(regardless of stack height) and to the enabled sentinel `(unsigned)-1`
when enabling, and binds the call's modeled boolean return value to the
enabled/disabled state that held immediately before the call. -/
theorem gc_enable_c6_amended (st : ProgramState) (v : Int) :
    (v = 0 →
      (evalGcEnable st (some v)).state.gcDisabledAt = UNSIGNED_NEG_TWO) ∧
    (v ≠ 0 →
      (evalGcEnable st (some v)).state.gcDisabledAt = UNSIGNED_NEG_ONE) ∧
    (evalGcEnable st (some v)).retVal = gcEnabledHere st ∧
    (evalGcEnable st (some v)).state.valueMap = st.valueMap ∧
    (evalGcEnable st (some v)).state.gcDepth = st.gcDepth := by
  refine ⟨?_, ?_, ?_, ?_, ?_⟩ <;>
    first
      | (intro hv
         by_cases h0 : v = 0 <;> (simp [evalGcEnable, h0]; tauto))
      | (by_cases h0 : v = 0 <;> simp [evalGcEnable, h0])

/-- Claim C6 witness: disabling in the enabled `sampleState` stores the
sentinel; enabling in `sampleDisabledState` restores the enabled sentinel
and returns `false` (the previous state was disabled). -/
theorem gc_enable_c6_amended_witness :
    (evalGcEnable sampleState (some 0)).state.gcDisabledAt =
      UNSIGNED_NEG_TWO ∧
    (evalGcEnable sampleDisabledState (some 1)).state.gcDisabledAt =
      UNSIGNED_NEG_ONE ∧
    (evalGcEnable sampleDisabledState (some 1)).retVal = false := by
  refine ⟨(gc_enable_c6_amended sampleState 0).1 rfl,
    (gc_enable_c6_amended sampleDisabledState 1).2.1 (by decide), ?_⟩
  rw [(gc_enable_c6_amended sampleDisabledState 1).2.2.1]
  decide

/-- Claim C7: neither a bind into a registered root slot nor a load through
a registered root slot downgrades an established root: a value already
`Rooted` at a depth less than or equal to the slot's `rootedAtDepth` keeps
its existing state, and the value is re-rooted at the slot's depth exactly
when it was unrooted or rooted strictly deeper. -/
theorem root_no_downgrade_c7 (r : MemRegion) (d : Int) (vs : ValueState) :
    (vs.S = VSKind.Rooted → vs.RootDepth ≤ d →
      bindRootUpdate r d vs = vs ∧ loadRootUpdate r d (some vs) = some vs) ∧
    (bindRootUpdate r d vs ≠ vs →
      (vs.S ≠ VSKind.Rooted ∨ vs.RootDepth > d) ∧
      bindRootUpdate r d vs = ValueState.getRooted r d) ∧
    (loadRootUpdate r d (some vs) ≠ some vs →
      (vs.S ≠ VSKind.Rooted ∨ vs.RootDepth > d) ∧
      loadRootUpdate r d (some vs) = some (ValueState.getRooted r d)) := by
  have hload : loadRootUpdate r d (some vs) =
      some (bindRootUpdate r d vs) := by
    show (if (!vs.isRooted || decide (vs.RootDepth > d)) = true
        then some (ValueState.getRooted (some r) d) else some vs) =
      some (bindRootUpdate r d vs)
    unfold bindRootUpdate
    by_cases hc2 : (!vs.isRooted || decide (vs.RootDepth > d)) = true
    · rw [if_pos hc2, if_pos hc2]
    · rw [if_neg hc2, if_neg hc2]
  have hdisj : (!vs.isRooted || decide (vs.RootDepth > d)) = true →
      vs.S ≠ VSKind.Rooted ∨ vs.RootDepth > d := by
    intro hc
    by_cases hS : vs.S = VSKind.Rooted
    · right
      rw [(isRooted_iff vs).mpr hS] at hc
      simpa using hc
    · left
      exact hS
  by_cases hc : (!vs.isRooted || decide (vs.RootDepth > d)) = true
  · have hb : bindRootUpdate r d vs = ValueState.getRooted (some r) d := by
      unfold bindRootUpdate
      rw [if_pos hc]
    refine ⟨?_, fun _ => ⟨hdisj hc, hb⟩,
      fun _ => ⟨hdisj hc, by rw [hload, hb]⟩⟩
    intro hS hle
    exfalso
    rw [(isRooted_iff vs).mpr hS] at hc
    simp at hc
    omega
  · have hb : bindRootUpdate r d vs = vs := by
      unfold bindRootUpdate
      rw [if_neg hc]
    refine ⟨fun _ _ => ⟨hb, by rw [hload, hb]⟩, fun hne => absurd hb hne,
      fun hne => absurd (by rw [hload, hb]) hne⟩

/-- Claim C7 witness: a value rooted at depth 0 is unchanged by a bind into
and a load through a root slot registered at depth 1. -/
theorem root_no_downgrade_c7_witness :
    bindRootUpdate 7 1 (ValueState.getRooted (some 0) 0) =
      ValueState.getRooted (some 0) 0 ∧
    loadRootUpdate 7 1 (some (ValueState.getRooted (some 0) 0)) =
      some (ValueState.getRooted (some 0) 0) :=
  (root_no_downgrade_c7 7 1 (ValueState.getRooted (some 0) 0)).1 rfl
    (by decide)

/-- Claim C8: `isSafepoint` classifies a call whose declaration resides in
the `llvm` or `std` namespace as not a safepoint, and classifies a call
with no resolvable declaration and no callee expression (outside a system
header) as a safepoint. -/
theorem is_safepoint_c8 (c1 c2 : CallDescr)
    (h1 : c1.hasDecl = true)
    (h2 : c1.declNamespaces.contains "llvm" = true ∨
      c1.declNamespaces.contains "std" = true)
    (h3 : c2.inSystemHeader = false)
    (h4 : c2.hasDecl = false)
    (h5 : c2.fd = none)
    (h6 : c2.hasCalleeExpr = false) :
    isSafepoint c1 = false ∧ isSafepoint c2 = true := by
  constructor
  · unfold isSafepoint
    by_cases hz : c1.inSystemHeader = true
    · rw [if_pos hz]
    · rw [if_neg hz, if_pos ?_]
      rw [h1]
      rcases h2 with h2 | h2 <;> rw [h2] <;> simp
  · unfold isSafepoint
    rw [if_neg (by rw [h3]; exact Bool.false_ne_true)]
    rw [if_neg (by rw [h4]; simp)]
    rw [h5]
    show (if !c2.hasCalleeExpr then true
      else if c2.calleeIsElaboratedTypedef then !c2.calleeTypedefNotSafepointAnnot
      else if c2.calleeIsPseudoDtor then false
      else true) = true
    rw [h6]
    rfl

/-- Claim C8 witness: `llvmCall` (declared in namespace `llvm`) is not a
safepoint; `unknownCall` (no declaration, no callee expression) is. -/
theorem is_safepoint_c8_witness :
    isSafepoint llvmCall = false ∧ isSafepoint unknownCall = true :=
  is_safepoint_c8 llvmCall unknownCall rfl (Or.inl (by decide)) rfl rfl rfl
    rfl

/-- Claim C9: when GC is disabled in the incoming state, `checkPreCall`
emits no diagnostic at all (and leaves the state unchanged), whatever the
call: neither a safepoint-while-safepoints-disabled report nor any
argument report. -/
theorem gc_disabled_no_diags_c9 (st : ProgramState) (c : PreCallInput)
    (h : st.gcDisabledAt ≠ UNSIGNED_NEG_ONE) :
    (checkPreCall st c).1 = [] ∧ (checkPreCall st c).2 = st := by
  have hgc : gcEnabledHere st = false := by
    unfold gcEnabledHere
    exact beq_eq_false_iff_ne.mpr h
  unfold checkPreCall
  rw [hgc]
  exact ⟨rfl, rfl⟩

/-- Claim C9 witness: in `sampleDisabledState` (GC disabled by
`jl_gc_enable(0)`), the call of `samplePreCall` — which passes the
`PotentiallyFreed` symbol 2 to a safepoint callee — produces no diagnostic. -/
theorem gc_disabled_no_diags_c9_witness :
    (checkPreCall sampleDisabledState samplePreCall).1 = [] ∧
    (checkPreCall sampleDisabledState samplePreCall).2 =
      sampleDisabledState :=
  gc_disabled_no_diags_c9 sampleDisabledState samplePreCall (by decide)

/-- Claim C10: a direct call to `JL_GC_PROMISE_ROOTED` is exempt from every
pre-call argument check (only the safepoint-while-disabled report can ever
be emitted for it, never an argument diagnostic), and the `evalCall`
transition for it roots the argument symbol at `Rooted(null,-1)` when the
argument has a symbolic identity, reporting the
`"Can not understand this promise."` error (and changing nothing) only when
it has none. -/
theorem promise_rooted_c10 (st st2 : ProgramState) (c : PreCallInput)
    (s : SymbolRef) (hname : fdNameOf c.fd = "JL_GC_PROMISE_ROOTED") :
    (∀ d ∈ (checkPreCall st c).1, d = Diag.SafepointViolation) ∧
    (evalPromiseRooted st2 (some s)).1 = false ∧
    (evalPromiseRooted st2 (some s)).2.valueMap s =
      some (ValueState.getRooted none (-1)) ∧
    (evalPromiseRooted st2 none).1 = true ∧
    (evalPromiseRooted st2 none).2 = st2 := by
  refine ⟨?_, rfl, ?_, rfl, rfl⟩
  · intro d hd
    unfold checkPreCall at hd
    by_cases hgc : gcEnabledHere st = true
    · rw [hgc] at hd
      simp only [Bool.not_true, Bool.false_eq_true, if_false] at hd
      by_cases hsp : (!(safepointEnabledHere (preCallLeaveState st c)) &&
          c.isCalleeSafepoint && !(fdIsNoReturn c.fd)) = true
      · rw [if_pos hsp] at hd
        simpa using hd
      · rw [if_neg hsp, if_pos hname] at hd
        simp at hd
    · rw [Bool.not_eq_true] at hgc
      rw [hgc] at hd
      simp at hd
  · show updSym st2.valueMap s (ValueState.getRooted none (-1)) s = _
    unfold updSym
    rw [if_pos rfl]

/-- Claim C10 witness: passing the `PotentiallyFreed` symbol 2 to
`JL_GC_PROMISE_ROOTED` produces no argument diagnostic, and the transition
roots it; with no resolvable argument symbol the error flag is set. -/
theorem promise_rooted_c10_witness :
    Diag.UseOfPossiblyCollected 2 ∉
      (checkPreCall sampleState promiseCallInput).1 ∧
    (evalPromiseRooted sampleState (some 2)).2.valueMap 2 =
      some (ValueState.getRooted none (-1)) ∧
    (evalPromiseRooted sampleState none).1 = true := by
  have h := promise_rooted_c10 sampleState sampleState promiseCallInput 2 rfl
  exact ⟨fun hm => Diag.noConfusion (h.1 _ hm), h.2.2.1, h.2.2.2.1⟩
